import Mathlib

/-!
Verification of the rate-limiting / admission-control subsystem of the
textfully/atlas messaging API (`server/utils/rate_limiter.py`,
`server/utils/redis_client.py`, `server/api/app.py`).

A tenant's quota state lives in one redis sorted set keyed
`rate:msg:daily:<organization_id>` whose members are stringified timestamps and
whose scores are those same timestamps.  Since the member determines the score,
the set is modelled as a `Finset ℚ` of timestamps.  Real-valued wall-clock
times are modelled as rationals.
-/

namespace Atlas

/-- Subscription tiers, from `api/types/enums.py`. -/
inductive SubscriptionTier where
  | free
  | basic
  | pro
  | growth
deriving DecidableEq, Repr

/-- The redis sorted set holding one tenant's accepted-send timestamps. -/
abbrev Window := Finset ℚ

/-- 24 hours in seconds, the literal `24 * 60 * 60` of the source. -/
def DAY : ℚ := 24 * 60 * 60

/-- Redis `ZCOUNT key min max`: members with score in the closed interval. -/
def zcount (s : Window) (lo hi : ℚ) : ℕ :=
  (s.filter fun t => lo ≤ t ∧ t ≤ hi).card

/-- Redis `ZRANGEBYSCORE key min max withscores`: the members whose score lies
in the closed interval (returned by redis in ascending score order). -/
def rangeMembers (s : Window) (lo hi : ℚ) : Window :=
  s.filter fun t => lo ≤ t ∧ t ≤ hi

/-- The first element of an ascending-by-score listing of `s`
(`ZRANGE key 0 0` or the head of a `ZRANGEBYSCORE` reply). -/
def windowMin (s : Window) : Option ℚ :=
  if h : s.Nonempty then some (s.min' h) else none

/-- Redis `ZREMRANGEBYSCORE key -inf hi`: drop members with score `≤ hi`,
returning the surviving set. -/
def zremUpTo (s : Window) (hi : ℚ) : Window :=
  s.filter fun t => hi < t

/-- Python `round(x)` to the nearest integer, ties to even. -/
def pyRoundInt (q : ℚ) : ℤ :=
  let f := ⌊q⌋
  let r := q - (f : ℚ)
  if r < 1 / 2 then f
  else if 1 / 2 < r then f + 1
  else if f % 2 = 0 then f else f + 1

/-- Python `round(x, 3)`: millisecond precision. -/
def pyRound3 (q : ℚ) : ℚ :=
  (pyRoundInt (q * 1000) : ℚ) / 1000

/-- Python `int(x)`: truncation toward zero. -/
def pyInt (q : ℚ) : ℤ :=
  if 0 ≤ q then ⌊q⌋ else ⌈q⌉

/-- Result of the per-second check: either fall through (allow) or raise
HTTP 429 with `type = "per_second_limit"` and the given rounded retry hint. -/
inductive PerSecond where
  | allowed : PerSecond
  | rejected (retry_after : ℚ) : PerSecond
deriving DecidableEq, Repr

/-- `RateLimiter.check_message_rate` (`rate_limiter.py` lines 33-70).
Counts members with score in `[now - 1, now]` (redis bounds are inclusive);
if at least one exists, re-reads that range and raises 429 with
`retry_after = round(oldest_in_second + 1 - now, 3)`.  The function performs
no write. -/
def check_message_rate (s : Window) (now : ℚ) : PerSecond :=
  if 1 ≤ zcount s (now - 1) now then
    match windowMin (rangeMembers s (now - 1) now) with
    | some oldest => PerSecond.rejected (pyRound3 (oldest + 1 - now))
    | none => PerSecond.allowed
  else PerSecond.allowed

/-- Result of the daily check: raise HTTP 429 with `type = "daily_limit"`,
or return the rate-limit header dict. -/
inductive DailyResult where
  | rejected (retry_after : ℤ) : DailyResult
  | allowed (headers : List (String × String)) : DailyResult
deriving DecidableEq, Repr

/-- `daily_limit = 100 if tier == SubscriptionTier.FREE else float("inf")`;
`none` models the infinite float. -/
def daily_limit (tier : SubscriptionTier) : Option ℕ :=
  if tier = SubscriptionTier.free then some 100 else none

/-- Python `str(daily_limit)` (note `str(float("inf")) = "inf"`). -/
def limitStr : Option ℕ → String
  | some n => toString n
  | none => "inf"

/-- Python `str(daily_limit - daily_count)`. -/
def remainingStr : Option ℕ → ℕ → String
  | some n, c => toString ((n : ℤ) - (c : ℤ))
  | none, _ => "inf"

namespace RateLimiter

/-- `RateLimiter.check_rate_limit` (`rate_limiter.py` lines 139-187).
Purges members with score `≤ now - 24h` (a write that happens on every call),
reads the oldest survivor and the surviving cardinality, and either raises 429
with `retry_after = int(oldest + 24h - now)` or returns the two rate-limit
headers.  Returns the post-purge window together with the verdict. -/
def check_rate_limit (s : Window) (tier : SubscriptionTier) (now : ℚ) :
    Window × DailyResult :=
  let cutoff := now - DAY
  let s2 := zremUpTo s cutoff
  let oldest := windowMin s2
  let cnt := s2.card
  let lim := daily_limit tier
  let exceeded : Bool :=
    match lim with
    | some n => decide (n ≤ cnt)
    | none => false
  if exceeded && oldest.isSome then
    (s2, DailyResult.rejected (pyInt (oldest.getD now + DAY - now)))
  else
    (s2,
     DailyResult.allowed
       [("X-RateLimit-Limit", limitStr lim),
        ("X-RateLimit-Remaining", remainingStr lim cnt)])

/-- `RateLimiter.increment_daily_count` (`rate_limiter.py` lines 72-91):
`ZADD` of the current timestamp, then purge of members `≤ now - 24h`.
(The trailing `EXPIRE` sets a key TTL and touches no member.) -/
def increment_daily_count (s : Window) (now : ℚ) : Window :=
  zremUpTo (insert now s) (now - DAY)

/-- `RateLimiter.get_daily_count` (`rate_limiter.py` lines 93-110): purge of
members `≤ now - 24h` (a write), then `ZCARD` of the survivors. -/
def get_daily_count (s : Window) (now : ℚ) : Window × ℕ :=
  let s2 := zremUpTo s (now - DAY)
  (s2, s2.card)

/-- The dict returned by `RateLimiter.get_current_limits`; `per_day = none`
models `float("inf")` and `messages_remaining_today = none` models
Python `None`. -/
structure LimitsStatus where
  per_second : ℕ
  per_day : Option ℕ
  messages_sent_today : ℕ
  messages_remaining_today : Option ℤ
deriving DecidableEq, Repr

/-- `RateLimiter.get_current_limits` (`rate_limiter.py` lines 112-137): calls
`get_daily_count` (which purges) and assembles the status dict with
`max(0, daily_limit - daily_count)` for FREE and `None` otherwise. -/
def get_current_limits (s : Window) (tier : SubscriptionTier) (now : ℚ) :
    Window × LimitsStatus :=
  let r := get_daily_count s now
  (r.1,
   { per_second := 1,
     per_day := daily_limit tier,
     messages_sent_today := r.2,
     messages_remaining_today :=
       if tier = SubscriptionTier.free then some (max 0 ((100 : ℤ) - (r.2 : ℤ)))
       else none })

end RateLimiter

/-- Outcome of the module-level admission dependency as seen by the caller:
the headers, one of the two structured 429 rejections, or an uncaught
store exception. -/
inductive AdmitOutcome where
  | allowed (headers : List (String × String)) : AdmitOutcome
  | per_second_limit (retry_after : ℚ) : AdmitOutcome
  | daily_limit (retry_after : ℤ) : AdmitOutcome
  | storeException : AdmitOutcome
deriving DecidableEq, Repr

def AdmitOutcome.isAllowed : AdmitOutcome → Bool
  | AdmitOutcome.allowed _ => true
  | _ => false

/-- The module-level `check_rate_limit` dependency (`rate_limiter.py` lines
190-218) after `verify_api_key`: per-second check, then tier resolution, then
daily check.  `storeUp` models reachability of redis: no redis call in
`rate_limiter.py` is wrapped in a try/except, so a client failure propagates
out of the first redis round-trip as an uncaught exception and no check or
write takes place.  `tier` is the value resolved by `get_organization_tier`. -/
def check_rate_limit (storeUp : Bool) (s : Window) (tier : SubscriptionTier)
    (now : ℚ) : Window × AdmitOutcome :=
  match storeUp with
  | false => (s, AdmitOutcome.storeException)
  | true =>
    match check_message_rate s now with
    | PerSecond.rejected r => (s, AdmitOutcome.per_second_limit r)
    | PerSecond.allowed =>
      match RateLimiter.check_rate_limit s tier now with
      | (s2, DailyResult.rejected r) => (s2, AdmitOutcome.daily_limit r)
      | (s2, DailyResult.allowed h) => (s2, AdmitOutcome.allowed h)

/-- What crosses the HTTP boundary for each admission outcome: the status code
and, for the structured 429s, the `type` field of the JSON detail.  FastAPI
maps an uncaught exception in a dependency to a bare 500 response. -/
structure HttpSurface where
  status : ℕ
  rtype : Option String
deriving DecidableEq, Repr

def surfaceOf : AdmitOutcome → HttpSurface
  | AdmitOutcome.allowed _ => { status := 200, rtype := none }
  | AdmitOutcome.per_second_limit _ => { status := 429, rtype := some "per_second_limit" }
  | AdmitOutcome.daily_limit _ => { status := 429, rtype := some "daily_limit" }
  | AdmitOutcome.storeException => { status := 500, rtype := none }

/-- Modelled from the spec: a StoreUnavailable rejection is a fail-closed
rejection (429) surfaced distinctly from the quota-exceeded kinds, i.e. whose
`type` differs from `per_second_limit` and `daily_limit`. -/
def isStoreUnavailableRejection (h : HttpSurface) : Bool :=
  h.status == 429 &&
    !(h.rtype == some "per_second_limit") && !(h.rtype == some "daily_limit")

/-- Result of the `send_message` endpoint body. -/
inductive SendResult where
  | ok (headers : List (String × String)) : SendResult
  | http500 : SendResult
  | notSent (outcome : AdmitOutcome) : SendResult
deriving DecidableEq, Repr

/-- The `send_message` endpoint (`api/app.py` lines 123-214): admission runs in
the `check_rate_limit` dependency; on admission the message is forwarded to the
atlas gateway and persisted via `SupabaseClient.create_message`, and only after
both succeed does `RateLimiter.increment_daily_count` run, at the (later) time
`recordTime`.  A gateway failure (`message_guid` falsy) or persistence error
raises HTTP 500 before the increment.  `gatewayOk` / `persistOk` model success
of the two external calls. -/
def send_message (storeUp : Bool) (s : Window) (tier : SubscriptionTier)
    (now : ℚ) (gatewayOk persistOk : Bool) (recordTime : ℚ) :
    Window × SendResult :=
  match check_rate_limit storeUp s tier now with
  | (s2, AdmitOutcome.allowed h) =>
    match gatewayOk with
    | false => (s2, SendResult.http500)
    | true =>
      match persistOk with
      | false => (s2, SendResult.http500)
      | true => (RateLimiter.increment_daily_count s2 recordTime, SendResult.ok h)
  | (s2, o) => (s2, SendResult.notSent o)

/-- The reply of `SupabaseClient.fetch_organization` as consumed by
`get_organization_tier`: an error message, and the `subscription_tier` column
of the fetched row when a row came back (`none` = missing tenant). -/
structure OrgFetchResponse where
  data : Option String
  error : Option String
deriving DecidableEq, Repr

/-- `SubscriptionTier(value)` from `enums.py`: `ValueError` on unknown value. -/
def subscriptionTierOf (v : String) : Option SubscriptionTier :=
  if v = "free" then some SubscriptionTier.free
  else if v = "basic" then some SubscriptionTier.basic
  else if v = "pro" then some SubscriptionTier.pro
  else if v = "growth" then some SubscriptionTier.growth
  else none

inductive TierResult where
  | ok (tier : SubscriptionTier) : TierResult
  | valueError : TierResult
deriving DecidableEq, Repr

/-- `get_organization_tier` (`rate_limiter.py` lines 14-29):
`if error or not data: return SubscriptionTier.FREE`, otherwise coerce the
stored string through the `SubscriptionTier` enum constructor. -/
def get_organization_tier (resp : OrgFetchResponse) : TierResult :=
  if resp.error.isSome || resp.data.isNone then TierResult.ok SubscriptionTier.free
  else
    match resp.data with
    | some v =>
      match subscriptionTierOf v with
      | some t => TierResult.ok t
      | none => TierResult.valueError
    | none => TierResult.ok SubscriptionTier.free

/-- One tenant's state in a sequential execution: the live sorted set
(`window`), the ghost set of every accepted-send timestamp ever recorded
(`history`, which purges do not erase), and the time of the last operation
(`clock`, used only to express that wall-clock time is non-decreasing). -/
structure TenantState where
  window : Window
  history : Finset ℚ
  clock : ℚ
deriving DecidableEq

/-- States of one tenant (of fixed tier) reachable by sequentially executed
admission checks, status queries and accepted-send recordings, at
non-decreasing wall-clock times.
* `status`: a `GET /messages/limits` call (purges via `get_daily_count`).
* `attempt`: a send request whose admission dependency ran but whose
  accepted-send recording did not (admission rejected, or the gateway/DB step
  failed afterwards); the window keeps whatever the checks left behind.
* `send`: an accepted send: both checks pass at time `tc` and the timestamp is
  recorded at time `tr ≥ tc` once forwarding and persistence succeeded.
* `tick`: time passes with no redis write (e.g. a store-down attempt). -/
inductive Reach (tier : SubscriptionTier) : TenantState → Prop where
  | init (t0 : ℚ) : Reach tier ⟨∅, ∅, t0⟩
  | status (s : TenantState) (now : ℚ) (h : Reach tier s) (hm : s.clock ≤ now) :
      Reach tier ⟨(RateLimiter.get_current_limits s.window tier now).1, s.history, now⟩
  | attempt (s : TenantState) (now : ℚ) (h : Reach tier s) (hm : s.clock ≤ now) :
      Reach tier ⟨(check_rate_limit true s.window tier now).1, s.history, now⟩
  | send (s : TenantState) (tc tr : ℚ) (h : Reach tier s) (hm : s.clock ≤ tc)
      (htr : tc ≤ tr)
      (ha : (check_rate_limit true s.window tier tc).2.isAllowed = true) :
      Reach tier
        ⟨RateLimiter.increment_daily_count (check_rate_limit true s.window tier tc).1 tr,
         insert tr s.history, tr⟩
  | tick (s : TenantState) (now : ℚ) (h : Reach tier s) (hm : s.clock ≤ now) :
      Reach tier ⟨s.window, s.history, now⟩

/-- Number of recorded accepted-send timestamps inside the trailing 24-hour
window ending at `T`. -/
def histWindowCount (hist : Finset ℚ) (T : ℚ) : ℕ :=
  (hist.filter fun t => T - DAY < t ∧ t ≤ T).card

/-- The inductive invariant tying the live window to the ghost history. -/
structure Inv (tier : SubscriptionTier) (s : TenantState) : Prop where
  window_sub : s.window ⊆ s.history
  recent_present : ∀ t ∈ s.history, s.clock - DAY < t → t ∈ s.window
  hist_le_clock : ∀ t ∈ s.history, t ≤ s.clock
  window_card : tier = SubscriptionTier.free → s.window.card ≤ 100
  hist_cap : tier = SubscriptionTier.free → ∀ T : ℚ, histWindowCount s.history T ≤ 100
  spacing : ∀ t1 ∈ s.history, ∀ t2 ∈ s.history, t1 < t2 → 1 ≤ t2 - t1

/-! ### Basic facts about the redis primitives -/

theorem DAY_pos : (0 : ℚ) < DAY := by norm_num [DAY]

theorem one_lt_DAY : (1 : ℚ) < DAY := by norm_num [DAY]

theorem mem_zremUpTo {s : Window} {hi t : ℚ} :
    t ∈ zremUpTo s hi ↔ t ∈ s ∧ hi < t := by
  simp [zremUpTo]

theorem zremUpTo_subset (s : Window) (hi : ℚ) : zremUpTo s hi ⊆ s :=
  Finset.filter_subset _ s

theorem zremUpTo_idem (s : Window) (hi : ℚ) :
    zremUpTo (zremUpTo s hi) hi = zremUpTo s hi := by
  simp [zremUpTo, Finset.filter_filter]

theorem zcount_eq_card_rangeMembers (s : Window) (lo hi : ℚ) :
    zcount s lo hi = (rangeMembers s lo hi).card := rfl

theorem zcount_eq_zero_iff {s : Window} {lo hi : ℚ} :
    zcount s lo hi = 0 ↔ ∀ t ∈ s, ¬(lo ≤ t ∧ t ≤ hi) := by
  simp [zcount, Finset.card_eq_zero, Finset.filter_eq_empty_iff]

theorem windowMin_eq_some_iff {s : Window} {o : ℚ} :
    windowMin s = some o ↔ o ∈ s ∧ ∀ t ∈ s, o ≤ t := by
  unfold windowMin
  split
  next hne =>
    constructor
    · intro h
      obtain rfl : s.min' hne = o := by exact Option.some_inj.mp h
      exact ⟨Finset.min'_mem s hne, fun t ht => Finset.min'_le s t ht⟩
    · intro ⟨hmem, hle⟩
      have h1 : s.min' hne ≤ o := Finset.min'_le s o hmem
      have h2 : o ≤ s.min' hne := hle _ (Finset.min'_mem s hne)
      rw [le_antisymm h1 h2]
  next hne =>
    constructor
    · intro h; cases h
    · intro ⟨hmem, _⟩; exact absurd ⟨o, hmem⟩ hne

theorem windowMin_isSome_iff {s : Window} :
    (windowMin s).isSome = true ↔ s.Nonempty := by
  unfold windowMin
  split <;> simp [*]

/-! ### Per-second check (`check_message_rate`) -/

theorem check_message_rate_allowed_iff {s : Window} {now : ℚ} :
    check_message_rate s now = PerSecond.allowed ↔
      ∀ t ∈ s, ¬(now - 1 ≤ t ∧ t ≤ now) := by
  rw [← zcount_eq_zero_iff]
  unfold check_message_rate
  split
  next hcnt =>
    have hne : (rangeMembers s (now - 1) now).Nonempty := by
      rw [← Finset.card_pos, ← zcount_eq_card_rangeMembers]
      omega
    have hmin : (windowMin (rangeMembers s (now - 1) now)).isSome = true :=
      windowMin_isSome_iff.mpr hne
    obtain ⟨o, ho⟩ := Option.isSome_iff_exists.mp hmin
    rw [ho]
    constructor
    · intro h; cases h
    · intro h0; omega
  next hcnt =>
    have h0 : zcount s (now - 1) now = 0 := by omega
    simp [h0]

theorem check_message_rate_rejected_of_min {s : Window} {now o : ℚ}
    (h : windowMin (rangeMembers s (now - 1) now) = some o) :
    check_message_rate s now = PerSecond.rejected (pyRound3 (o + 1 - now)) ∧
      0 ≤ o + 1 - now := by
  obtain ⟨hmem, -⟩ := windowMin_eq_some_iff.mp h
  have hlo : now - 1 ≤ o := by
    have := (Finset.mem_filter.mp hmem).2
    exact this.1
  have hcnt : 1 ≤ zcount s (now - 1) now := by
    rw [zcount_eq_card_rangeMembers]
    have : 0 < (rangeMembers s (now - 1) now).card :=
      Finset.card_pos.mpr ⟨o, hmem⟩
    omega
  constructor
  · unfold check_message_rate
    rw [if_pos hcnt, h]
  · linarith

/-! ### Daily check (`RateLimiter.check_rate_limit`) -/

theorem RL_check_fst (s : Window) (tier : SubscriptionTier) (now : ℚ) :
    (RateLimiter.check_rate_limit s tier now).1 = zremUpTo s (now - DAY) := by
  simp only [RateLimiter.check_rate_limit]
  split <;> rfl

theorem RL_check_nonfree (s : Window) (tier : SubscriptionTier) (now : ℚ)
    (h : tier ≠ SubscriptionTier.free) :
    RateLimiter.check_rate_limit s tier now =
      (zremUpTo s (now - DAY),
       DailyResult.allowed
         [("X-RateLimit-Limit", "inf"), ("X-RateLimit-Remaining", "inf")]) := by
  have hl : daily_limit tier = none := by simp [daily_limit, h]
  simp [RateLimiter.check_rate_limit, hl, limitStr, remainingStr]

theorem RL_check_free_allowed (s : Window) (now : ℚ)
    (h : (zremUpTo s (now - DAY)).card < 100) :
    RateLimiter.check_rate_limit s SubscriptionTier.free now =
      (zremUpTo s (now - DAY),
       DailyResult.allowed
         [("X-RateLimit-Limit", "100"),
          ("X-RateLimit-Remaining",
           toString ((100 : ℤ) - ((zremUpTo s (now - DAY)).card : ℤ)))]) := by
  have hl : daily_limit SubscriptionTier.free = some 100 := by simp [daily_limit]
  have hn : ¬(100 ≤ (zremUpTo s (now - DAY)).card) := by omega
  simp [RateLimiter.check_rate_limit, hl, hn, limitStr, remainingStr]
  rfl

theorem RL_check_free_rejected (s : Window) (now : ℚ)
    (h : 100 ≤ (zremUpTo s (now - DAY)).card) :
    ∃ r, RateLimiter.check_rate_limit s SubscriptionTier.free now =
      (zremUpTo s (now - DAY), DailyResult.rejected r) := by
  have hl : daily_limit SubscriptionTier.free = some 100 := by simp [daily_limit]
  have hne : (zremUpTo s (now - DAY)).Nonempty := by
    rw [← Finset.card_pos]; omega
  have hsome : (windowMin (zremUpTo s (now - DAY))).isSome = true :=
    windowMin_isSome_iff.mpr hne
  refine ⟨pyInt ((windowMin (zremUpTo s (now - DAY))).getD now + DAY - now), ?_⟩
  simp [RateLimiter.check_rate_limit, hl, h, hsome]

theorem RL_check_free_allowed_card {s : Window} {now : ℚ} {hd : List (String × String)}
    (h : (RateLimiter.check_rate_limit s SubscriptionTier.free now).2 =
      DailyResult.allowed hd) :
    (zremUpTo s (now - DAY)).card ≤ 99 := by
  by_contra hgt
  have h100 : 100 ≤ (zremUpTo s (now - DAY)).card := by omega
  obtain ⟨r, hr⟩ := RL_check_free_rejected s now h100
  rw [hr] at h
  cases h

/-! ### The admission dependency (module-level `check_rate_limit`) -/

theorem dep_cases (s : Window) (tier : SubscriptionTier) (now : ℚ) :
    (∃ r, check_message_rate s now = PerSecond.rejected r ∧
       check_rate_limit true s tier now = (s, AdmitOutcome.per_second_limit r)) ∨
    (check_message_rate s now = PerSecond.allowed ∧
       (check_rate_limit true s tier now).1 = zremUpTo s (now - DAY) ∧
       ((∃ r, (RateLimiter.check_rate_limit s tier now).2 = DailyResult.rejected r ∧
           (check_rate_limit true s tier now).2 = AdmitOutcome.daily_limit r) ∨
        (∃ hd, (RateLimiter.check_rate_limit s tier now).2 = DailyResult.allowed hd ∧
           (check_rate_limit true s tier now).2 = AdmitOutcome.allowed hd))) := by
  cases hc : check_message_rate s now with
  | rejected r =>
    exact Or.inl ⟨r, rfl, by simp [check_rate_limit, hc]⟩
  | allowed =>
    rcases hRL : RateLimiter.check_rate_limit s tier now with ⟨s2, v⟩
    have hs2 : s2 = zremUpTo s (now - DAY) := by
      have h := RL_check_fst s tier now
      rw [hRL] at h
      exact h
    cases v with
    | rejected r =>
      refine Or.inr ⟨rfl, ?_, Or.inl ⟨r, rfl, ?_⟩⟩ <;>
        simp [check_rate_limit, hc, hRL, hs2]
    | allowed hd =>
      refine Or.inr ⟨rfl, ?_, Or.inr ⟨hd, rfl, ?_⟩⟩ <;>
        simp [check_rate_limit, hc, hRL, hs2]

theorem dep_fst_cases (s : Window) (tier : SubscriptionTier) (now : ℚ) :
    (check_rate_limit true s tier now).1 = s ∨
    (check_rate_limit true s tier now).1 = zremUpTo s (now - DAY) := by
  rcases dep_cases s tier now with ⟨r, _, hdep⟩ | ⟨_, hfst, _⟩
  · left; rw [hdep]
  · right; exact hfst

theorem get_current_limits_fst (s : Window) (tier : SubscriptionTier) (now : ℚ) :
    (RateLimiter.get_current_limits s tier now).1 = zremUpTo s (now - DAY) := rfl

theorem mem_increment_daily_count {s : Window} {now t : ℚ} :
    t ∈ RateLimiter.increment_daily_count s now ↔
      (t = now ∨ t ∈ s) ∧ now - DAY < t := by
  simp [RateLimiter.increment_daily_count, mem_zremUpTo, Finset.mem_insert, and_comm]

/-! ### Preservation of the invariant -/

theorem Inv.initial (tier : SubscriptionTier) (t0 : ℚ) : Inv tier ⟨∅, ∅, t0⟩ := by
  refine ⟨?_, ?_, ?_, ?_, ?_, ?_⟩ <;> simp [histWindowCount]

theorem Inv.purge_step {tier : SubscriptionTier} {s : TenantState} (hInv : Inv tier s)
    {w2 : Window} {now : ℚ} (hm : s.clock ≤ now) (hsub : w2 ⊆ s.window)
    (hkeep : ∀ t ∈ s.window, now - DAY < t → t ∈ w2) :
    Inv tier ⟨w2, s.history, now⟩ := by
  refine ⟨?_, ?_, ?_, ?_, ?_, ?_⟩
  · exact hsub.trans hInv.window_sub
  · intro t ht hrec
    have hrec' : now - DAY < t := hrec
    have h1 : s.clock - DAY < t := by linarith
    exact hkeep t (hInv.recent_present t ht h1) hrec'
  · intro t ht
    exact le_trans (hInv.hist_le_clock t ht) hm
  · intro hf
    exact le_trans (Finset.card_le_card hsub) (hInv.window_card hf)
  · exact hInv.hist_cap
  · exact hInv.spacing

theorem Inv.send_step {tier : SubscriptionTier} {s : TenantState} (hInv : Inv tier s)
    {tc tr : ℚ} (hm : s.clock ≤ tc) (htr : tc ≤ tr)
    (ha : (check_rate_limit true s.window tier tc).2.isAllowed = true) :
    Inv tier
      ⟨RateLimiter.increment_daily_count (check_rate_limit true s.window tier tc).1 tr,
       insert tr s.history, tr⟩ := by
  rcases dep_cases s.window tier tc with ⟨r, hc, hdep⟩ | ⟨hps, hfst, hrest⟩
  · rw [hdep] at ha
    simp [AdmitOutcome.isAllowed] at ha
  rcases hrest with ⟨r, hRL2, hdep2⟩ | ⟨hd, hRL2, hdep2⟩
  · rw [hdep2] at ha
    simp [AdmitOutcome.isAllowed] at ha
  have hps' : ∀ t ∈ s.window, ¬(tc - 1 ≤ t ∧ t ≤ tc) :=
    check_message_rate_allowed_iff.mp hps
  rw [hfst]
  have hfreecard : tier = SubscriptionTier.free →
      (zremUpTo s.window (tc - DAY)).card ≤ 99 := by
    intro hf
    subst hf
    exact RL_check_free_allowed_card hRL2
  have hmemw1 : ∀ t ∈ s.history, tc - DAY < t → t ∈ zremUpTo s.window (tc - DAY) := by
    intro t ht hrec
    have hclk : s.clock - DAY < t := by linarith
    exact mem_zremUpTo.mpr ⟨hInv.recent_present t ht hclk, hrec⟩
  refine ⟨?_, ?_, ?_, ?_, ?_, ?_⟩
  · intro x hx
    rcases (mem_increment_daily_count.mp hx).1 with rfl | hx1
    · exact Finset.mem_insert_self _ _
    · exact Finset.mem_insert_of_mem
        (hInv.window_sub (zremUpTo_subset _ _ hx1))
  · intro t ht hrec
    have hrec' : tr - DAY < t := hrec
    rcases Finset.mem_insert.mp ht with rfl | ht1
    · exact mem_increment_daily_count.mpr ⟨Or.inl rfl, hrec'⟩
    · have hlt : tc - DAY < t := by linarith
      exact mem_increment_daily_count.mpr ⟨Or.inr (hmemw1 t ht1 hlt), hrec'⟩
  · intro t ht
    show t ≤ tr
    rcases Finset.mem_insert.mp ht with rfl | ht1
    · exact le_rfl
    · have := hInv.hist_le_clock t ht1
      linarith
  · intro hf
    have hsub : RateLimiter.increment_daily_count (zremUpTo s.window (tc - DAY)) tr ⊆
        insert tr (zremUpTo s.window (tc - DAY)) := by
      intro x hx
      rcases (mem_increment_daily_count.mp hx).1 with rfl | hx1
      · exact Finset.mem_insert_self _ _
      · exact Finset.mem_insert_of_mem hx1
    calc (RateLimiter.increment_daily_count (zremUpTo s.window (tc - DAY)) tr).card
        ≤ (insert tr (zremUpTo s.window (tc - DAY))).card := Finset.card_le_card hsub
      _ ≤ (zremUpTo s.window (tc - DAY)).card + 1 := Finset.card_insert_le _ _
      _ ≤ 100 := by have := hfreecard hf; omega
  · intro hf T
    unfold histWindowCount
    rw [Finset.filter_insert]
    split
    next hp =>
      have hsub : (s.history.filter fun t => T - DAY < t ∧ t ≤ T) ⊆
          zremUpTo s.window (tc - DAY) := by
        intro t ht
        have ht1 := (Finset.mem_filter.mp ht).1
        have ht2 := (Finset.mem_filter.mp ht).2.1
        have htc : tc - DAY < t := by
          have hTtr : tr ≤ T := hp.2
          linarith
        exact hmemw1 t ht1 htc
      have h99 : (s.history.filter fun t => T - DAY < t ∧ t ≤ T).card ≤ 99 :=
        le_trans (Finset.card_le_card hsub) (hfreecard hf)
      calc (insert tr (s.history.filter fun t => T - DAY < t ∧ t ≤ T)).card
          ≤ (s.history.filter fun t => T - DAY < t ∧ t ≤ T).card + 1 :=
            Finset.card_insert_le _ _
        _ ≤ 100 := by omega
    next hp =>
      exact hInv.hist_cap hf T
  · intro t1 ht1 t2 ht2 hlt
    rcases Finset.mem_insert.mp ht1 with rfl | ht1' <;>
      rcases Finset.mem_insert.mp ht2 with h2 | ht2'
    · exact absurd (h2 ▸ hlt) (lt_irrefl _)
    · have := hInv.hist_le_clock t2 ht2'
      exact absurd hlt (by push_neg; linarith)
    · subst h2
      by_contra hcon
      push_neg at hcon
      have hwin : t1 ∈ s.window := by
        apply hInv.recent_present t1 ht1'
        have h1 := one_lt_DAY
        linarith
      have hle : t1 ≤ s.clock := hInv.hist_le_clock t1 ht1'
      exact hps' t1 hwin ⟨by linarith, by linarith⟩
    · exact hInv.spacing t1 ht1' t2 ht2' hlt

theorem windowMin_singleton (a : ℚ) : windowMin {a} = some a :=
  windowMin_eq_some_iff.mpr ⟨Finset.mem_singleton_self a, by simp⟩

theorem dep_allowed_eq {s s2 : Window} {tier : SubscriptionTier} {now : ℚ}
    {hd : List (String × String)}
    (h1 : check_message_rate s now = PerSecond.allowed)
    (h2 : RateLimiter.check_rate_limit s tier now = (s2, DailyResult.allowed hd)) :
    check_rate_limit true s tier now = (s2, AdmitOutcome.allowed hd) := by
  simp [check_rate_limit, h1, h2]

theorem dep_perSecond_eq {s : Window} {tier : SubscriptionTier} {now r : ℚ}
    (h : check_message_rate s now = PerSecond.rejected r) :
    check_rate_limit true s tier now = (s, AdmitOutcome.per_second_limit r) := by
  simp [check_rate_limit, h]

/-- Every reachable state satisfies the invariant. -/
theorem reach_inv {tier : SubscriptionTier} {s : TenantState}
    (h : Reach tier s) : Inv tier s := by
  induction h with
  | init t0 => exact Inv.initial tier t0
  | status s now h hm ih =>
    rw [get_current_limits_fst]
    exact ih.purge_step hm (zremUpTo_subset _ _)
      (fun t ht hrec => mem_zremUpTo.mpr ⟨ht, hrec⟩)
  | attempt s now h hm ih =>
    rcases dep_fst_cases s.window tier now with hfst | hfst <;> rw [hfst]
    · exact ih.purge_step hm (Finset.Subset.refl _) (fun t ht _ => ht)
    · exact ih.purge_step hm (zremUpTo_subset _ _)
        (fun t ht hrec => mem_zremUpTo.mpr ⟨ht, hrec⟩)
  | send s tc tr h hm htr ha ih =>
    exact ih.send_step hm htr ha
  | tick s now h hm ih =>
    exact ih.purge_step hm (Finset.Subset.refl _) (fun t ht _ => ht)

/-! ### Two small concrete reachable states, used to instantiate theorems -/

theorem reach_state_one : Reach SubscriptionTier.free ⟨{0}, {0}, 0⟩ := by
  have e1 : check_message_rate (∅ : Window) 0 = PerSecond.allowed :=
    check_message_rate_allowed_iff.mpr (by intro t ht; cases Finset.not_mem_empty t ht)
  have ezrem : zremUpTo (∅ : Window) (0 - DAY) = ∅ := by simp [zremUpTo]
  have e2 := RL_check_free_allowed ∅ 0 (by rw [ezrem]; norm_num)
  have e3 := dep_allowed_eq e1 e2
  have ha : (check_rate_limit true (∅ : Window) SubscriptionTier.free 0).2.isAllowed = true := by
    rw [e3]
    rfl
  have h := Reach.send ⟨∅, ∅, 0⟩ 0 0 (Reach.init 0) le_rfl le_rfl ha
  have hfst : (check_rate_limit true (∅ : Window) SubscriptionTier.free 0).1 = ∅ := by
    rw [e3, ezrem]
  have hinc : RateLimiter.increment_daily_count (∅ : Window) 0 = {0} := by
    rw [RateLimiter.increment_daily_count]
    have : insert (0 : ℚ) (∅ : Finset ℚ) = {0} := rfl
    rw [this, zremUpTo, Finset.filter_singleton, if_pos]
    norm_num [DAY]
  convert h using 1
  show (⟨{0}, {0}, 0⟩ : TenantState) =
    ⟨RateLimiter.increment_daily_count
       (check_rate_limit true (∅ : Window) SubscriptionTier.free 0).1 0,
     insert (0 : ℚ) (∅ : Finset ℚ), 0⟩
  rw [hfst, hinc]
  rfl

theorem reach_state_two : Reach SubscriptionTier.free ⟨{0, 3/2}, {0, 3/2}, 3/2⟩ := by
  have e1 : check_message_rate ({0} : Window) (3/2) = PerSecond.allowed := by
    apply check_message_rate_allowed_iff.mpr
    intro t ht
    rw [Finset.mem_singleton] at ht
    subst ht
    norm_num
  have ezrem : zremUpTo ({0} : Window) (3/2 - DAY) = {0} := by
    rw [zremUpTo, Finset.filter_singleton, if_pos]
    norm_num [DAY]
  have e2 := RL_check_free_allowed {0} (3/2) (by rw [ezrem]; norm_num)
  have e3 := dep_allowed_eq e1 e2
  have ha : (check_rate_limit true ({0} : Window) SubscriptionTier.free (3/2)).2.isAllowed = true := by
    rw [e3]
    rfl
  have h := Reach.send ⟨{0}, {0}, 0⟩ (3/2) (3/2) reach_state_one (by norm_num) le_rfl ha
  have hfst : (check_rate_limit true ({0} : Window) SubscriptionTier.free (3/2)).1 = {0} := by
    rw [e3, ezrem]
  have hinc : RateLimiter.increment_daily_count ({0} : Window) (3/2) = {0, 3/2} := by
    rw [RateLimiter.increment_daily_count, zremUpTo, Finset.filter_insert, if_pos]
    · rw [Finset.filter_singleton, if_pos]
      · exact Finset.pair_comm (3/2) 0
      · norm_num [DAY]
    · norm_num [DAY]
  convert h using 1
  show (⟨{0, 3/2}, {0, 3/2}, 3/2⟩ : TenantState) =
    ⟨RateLimiter.increment_daily_count
       (check_rate_limit true ({0} : Window) SubscriptionTier.free (3/2)).1 (3/2),
     insert (3/2 : ℚ) ({0} : Finset ℚ), 3/2⟩
  rw [hfst, hinc]
  have : insert (3/2 : ℚ) ({0} : Finset ℚ) = {0, 3/2} := Finset.pair_comm (3/2) 0
  rw [this]

theorem dep_fst_subset (storeUp : Bool) (s : Window) (tier : SubscriptionTier)
    (now : ℚ) : (check_rate_limit storeUp s tier now).1 ⊆ s := by
  cases storeUp
  · exact Finset.Subset.refl s
  · rcases dep_fst_cases s tier now with hf | hf <;> rw [hf]
    exact zremUpTo_subset _ _

/-! ### The claims -/

/-- C1: for every FREE-tier tenant, in every state reachable by sequentially
executed admission checks and accepted-send recordings, the number of recorded
accepted-send timestamps lying within any trailing 24-hour window never
exceeds 100. -/
theorem claim1_free_daily_cap (s : TenantState)
    (h : Reach SubscriptionTier.free s) (T : ℚ) :
    histWindowCount s.history T ≤ 100 :=
  (reach_inv h).hist_cap rfl T

theorem claim1_witness : histWindowCount ({0, 3/2} : Finset ℚ) 1 ≤ 100 :=
  claim1_free_daily_cap ⟨{0, 3/2}, {0, 3/2}, 3/2⟩ reach_state_two 1

/-- C2: for every tenant, in every reachable state, any two recorded
accepted-send timestamps t1 < t2 satisfy t2 - t1 ≥ 1.0 seconds. -/
theorem claim2_per_second_spacing (tier : SubscriptionTier) (s : TenantState)
    (h : Reach tier s) (t1 t2 : ℚ) (h1 : t1 ∈ s.history) (h2 : t2 ∈ s.history)
    (hlt : t1 < t2) : 1 ≤ t2 - t1 :=
  (reach_inv h).spacing t1 h1 t2 h2 hlt

theorem claim2_witness : (1 : ℚ) ≤ 3/2 - 0 :=
  claim2_per_second_spacing SubscriptionTier.free ⟨{0, 3/2}, {0, 3/2}, 3/2⟩
    reach_state_two 0 (3/2) (by simp) (by simp) (by norm_num)

/-- C3 counterexample: with the counter store down, the admission dependency
yields an uncaught store exception that surfaces as a bare HTTP 500, not as a
429 rejection with a kind distinct from the quota kinds; the StoreUnavailable
rejection the claim requires does not exist in the code. -/
theorem claim3_counterexample :
    (check_rate_limit false ∅ SubscriptionTier.free 0).2 = AdmitOutcome.storeException ∧
    isStoreUnavailableRejection
      (surfaceOf (check_rate_limit false ∅ SubscriptionTier.free 0).2) = false := by
  constructor <;> rfl

/-- C3 amended: if the counter store is unreachable during admission, the
dependency never returns ALLOWED and leaves the window untouched, but the
failure propagates as an uncaught exception surfacing as HTTP 500 with no
structured rejection type, rather than as a distinct StoreUnavailable
rejection. -/
theorem claim3_store_failure_unhandled (s : Window) (tier : SubscriptionTier)
    (now : ℚ) :
    check_rate_limit false s tier now = (s, AdmitOutcome.storeException) ∧
    (check_rate_limit false s tier now).2.isAllowed = false ∧
    surfaceOf (check_rate_limit false s tier now).2 = { status := 500, rtype := none } :=
  ⟨rfl, rfl, rfl⟩

/-- C4 counterexample: with one accepted send recorded at t = 0, a request at
now = 1 has now - lastSendTime = 1.0, which the claim says must be ALLOWED;
the code counts the inclusive interval [now - 1, now] and rejects with
retry_after 0. -/
theorem claim4_counterexample :
    check_message_rate {0} 1 = PerSecond.rejected 0 ∧
    check_message_rate {0} 1 ≠ PerSecond.allowed := by
  have h : check_message_rate ({0} : Window) 1 = PerSecond.rejected 0 := by
    norm_num [check_message_rate, zcount, rangeMembers, windowMin, pyRound3,
      pyRoundInt, Finset.filter_singleton]
  refine ⟨h, ?_⟩
  rw [h]
  intro hc
  cases hc

/-- C4 amended: the per-second check rejects exactly when some recorded send
lies in the closed interval [now - 1, now] (hence also at a gap of exactly
1.0s), and the rejection's retry hint is round(oldest + 1 - now, 3) computed
from the oldest entry of that interval, a value that is nonnegative without
any clamping; when no recorded send lies in the interval - in particular when
the tenant has no prior send at all - it allows. -/
theorem claim4_per_second_characterization (s : Window) (now : ℚ) :
    (check_message_rate s now = PerSecond.allowed ↔
      ∀ t ∈ s, ¬(now - 1 ≤ t ∧ t ≤ now)) ∧
    (∀ o : ℚ, windowMin (rangeMembers s (now - 1) now) = some o →
      check_message_rate s now = PerSecond.rejected (pyRound3 (o + 1 - now)) ∧
        0 ≤ o + 1 - now) :=
  ⟨check_message_rate_allowed_iff, fun _ ho => check_message_rate_rejected_of_min ho⟩

theorem claim4_witness :
    check_message_rate {0} (1/2) = PerSecond.rejected (pyRound3 (0 + 1 - 1/2)) ∧
      0 ≤ (0 : ℚ) + 1 - 1/2 :=
  (claim4_per_second_characterization {0} (1/2)).2 0 (by
    have hrange : rangeMembers ({0} : Window) (1/2 - 1) (1/2) = {0} := by
      rw [rangeMembers, Finset.filter_singleton, if_pos]
      norm_num
    rw [hrange, windowMin_singleton])

/-- C5 counterexample: a FREE tenant's first-ever send is allowed with
X-RateLimit-Remaining "100", not the claimed 100 - count - 1 = 99, and no
reset-in-seconds hint is attached. -/
theorem claim5_counterexample :
    (RateLimiter.check_rate_limit ∅ SubscriptionTier.free 0).2 =
      DailyResult.allowed
        [("X-RateLimit-Limit", "100"), ("X-RateLimit-Remaining", "100")] ∧
    ("100" : String) ≠ "99" := by
  constructor
  · rfl
  · decide

/-- C5 corrected: when the trailing-window count is below 100 the FREE daily
check allows, but the remaining header is 100 - count - the pending increment
is not anticipated - and no reset-in-seconds header is attached; a first-ever
send therefore reports remaining "100", not 99. -/
theorem claim5_free_allowed_headers (s : Window) (now : ℚ)
    (h : (zremUpTo s (now - DAY)).card < 100) :
    RateLimiter.check_rate_limit s SubscriptionTier.free now =
      (zremUpTo s (now - DAY),
       DailyResult.allowed
         [("X-RateLimit-Limit", "100"),
          ("X-RateLimit-Remaining",
           toString ((100 : ℤ) - ((zremUpTo s (now - DAY)).card : ℤ)))]) :=
  RL_check_free_allowed s now h

theorem claim5_witness :
    RateLimiter.check_rate_limit ∅ SubscriptionTier.free 0 =
      (zremUpTo ∅ (0 - DAY),
       DailyResult.allowed
         [("X-RateLimit-Limit", "100"),
          ("X-RateLimit-Remaining",
           toString ((100 : ℤ) - ((zremUpTo (∅ : Window) (0 - DAY)).card : ℤ)))]) :=
  claim5_free_allowed_headers ∅ 0 (by norm_num [zremUpTo])

/-- C6 counterexample: a PRO tenant's daily check does not short-circuit with
no headers: it returns the header dict with limit "inf" and remaining "inf". -/
theorem claim6_counterexample :
    (RateLimiter.check_rate_limit ∅ SubscriptionTier.pro 0).2 =
      DailyResult.allowed
        [("X-RateLimit-Limit", "inf"), ("X-RateLimit-Remaining", "inf")] ∧
    [("X-RateLimit-Limit", "inf"), ("X-RateLimit-Remaining", "inf")] ≠
      ([] : List (String × String)) := by
  constructor
  · rfl
  · intro hc
    cases hc

/-- C6 corrected: for every BASIC, PRO or GROWTH tenant the daily check
returns ALLOWED for every window and time - no daily rejection ever occurs
regardless of volume - but it does attach rate-limit headers, with the
stringified infinite values "inf". -/
theorem claim6_nonfree_always_allowed (s : Window) (tier : SubscriptionTier)
    (now : ℚ) (h : tier ≠ SubscriptionTier.free) :
    RateLimiter.check_rate_limit s tier now =
      (zremUpTo s (now - DAY),
       DailyResult.allowed
         [("X-RateLimit-Limit", "inf"), ("X-RateLimit-Remaining", "inf")]) :=
  RL_check_nonfree s tier now h

theorem claim6_witness :
    RateLimiter.check_rate_limit ∅ SubscriptionTier.pro 0 =
      (zremUpTo ∅ (0 - DAY),
       DailyResult.allowed
         [("X-RateLimit-Limit", "inf"), ("X-RateLimit-Remaining", "inf")]) :=
  claim6_nonfree_always_allowed ∅ SubscriptionTier.pro 0 (by decide)

/-- C7: in every reachable state, when the admission dependency rejects
(either by the per-second check or by the daily check) it leaves the tenant's
window exactly as it was before the call: no timestamp is appended and no
entry is removed.  The daily check's purge removes nothing here because, by
the reachable-state invariant, a FREE window that triggers a daily rejection
holds no expired entries. -/
theorem claim7_rejection_no_mutation (tier : SubscriptionTier) (s : TenantState)
    (now : ℚ) (h : Reach tier s) (_hm : s.clock ≤ now)
    (hr : (check_rate_limit true s.window tier now).2.isAllowed = false) :
    (check_rate_limit true s.window tier now).1 = s.window := by
  have hInv := reach_inv h
  rcases dep_cases s.window tier now with ⟨r, hc, hdep⟩ | ⟨hps, hfst, hrest⟩
  · rw [hdep]
  rcases hrest with ⟨r, hRL2, hdep2⟩ | ⟨hd, hRL2, hdep2⟩
  · have hfree : tier = SubscriptionTier.free := by
      by_contra hne
      have hnf := RL_check_nonfree s.window tier now hne
      simp [hnf] at hRL2
    subst hfree
    have hcard : 100 ≤ (zremUpTo s.window (now - DAY)).card := by
      by_contra hlt
      push_neg at hlt
      have hall := RL_check_free_allowed s.window now hlt
      simp [hall] at hRL2
    have hw100 : s.window.card ≤ 100 := hInv.window_card rfl
    have hsub : zremUpTo s.window (now - DAY) ⊆ s.window := zremUpTo_subset _ _
    have hle : s.window.card ≤ (zremUpTo s.window (now - DAY)).card := by omega
    have heq : zremUpTo s.window (now - DAY) = s.window :=
      Finset.eq_of_subset_of_card_le hsub hle
    rw [hfst, heq]
  · rw [hdep2] at hr
    simp [AdmitOutcome.isAllowed] at hr

theorem claim7_witness :
    (check_rate_limit true {0} SubscriptionTier.free (1/2)).1 = ({0} : Finset ℚ) :=
  claim7_rejection_no_mutation SubscriptionTier.free ⟨{0}, {0}, 0⟩ (1/2)
    reach_state_one (by norm_num) (by
      show (check_rate_limit true ({0} : Window) SubscriptionTier.free (1/2)).2.isAllowed = false
      have hrange : rangeMembers ({0} : Window) (1/2 - 1) (1/2) = {0} := by
        rw [rangeMembers, Finset.filter_singleton, if_pos]
        norm_num
      have hmin : windowMin (rangeMembers ({0} : Window) (1/2 - 1) (1/2)) = some 0 := by
        rw [hrange, windowMin_singleton]
      have hrej := (check_message_rate_rejected_of_min hmin).1
      rw [dep_perSecond_eq hrej]
      rfl)

/-- C8 counterexample: the status query is not a pure read: with one expired
entry (recorded at t = 0, queried at t = 86401) `get_current_limits` purges
the window from one entry down to empty. -/
theorem claim8_counterexample :
    (RateLimiter.get_current_limits {0} SubscriptionTier.free 86401).1 = (∅ : Finset ℚ) ∧
    ({0} : Finset ℚ) ≠ (∅ : Finset ℚ) := by
  constructor
  · norm_num [RateLimiter.get_current_limits, RateLimiter.get_daily_count, zremUpTo,
      Finset.filter_singleton, DAY]
  · decide

/-- C8 corrected: the status query never appends (its result window is a
subset of the input) but it does purge expired entries as a maintenance
write; it is idempotent at a fixed query time: repeating the call without
intervening sends returns the identical window and the identical status
dict. -/
theorem claim8_status_purges_and_idempotent (s : Window) (tier : SubscriptionTier)
    (now : ℚ) :
    (RateLimiter.get_current_limits s tier now).1 ⊆ s ∧
    RateLimiter.get_current_limits
        (RateLimiter.get_current_limits s tier now).1 tier now =
      RateLimiter.get_current_limits s tier now := by
  constructor
  · rw [get_current_limits_fst]
    exact zremUpTo_subset _ _
  · have hz := zremUpTo_idem s (now - DAY)
    simp [RateLimiter.get_current_limits, RateLimiter.get_daily_count, hz]

/-- C9: if the tier lookup fails or the tenant record is missing,
`get_organization_tier` returns FREE and never surfaces the failure as an
error to the caller. -/
theorem claim9_tier_fails_safe_to_free (resp : OrgFetchResponse)
    (h : resp.error.isSome = true ∨ resp.data = none) :
    get_organization_tier resp = TierResult.ok SubscriptionTier.free := by
  rcases h with h | h
  · simp [get_organization_tier, h]
  · simp [get_organization_tier, h]

theorem claim9_witness :
    get_organization_tier { data := none, error := some "connection error" } =
      TierResult.ok SubscriptionTier.free :=
  claim9_tier_fails_safe_to_free
    { data := none, error := some "connection error" } (Or.inl rfl)

/-- C10 counterexample: when the gateway forward fails after admission, the
window is not left unchanged: the admission checks already purged the expired
entry recorded at t = 0, so the window before the call ({0}) differs from the
window after it (∅). -/
theorem claim10_counterexample :
    (send_message true {0} SubscriptionTier.free 86401 false false 86401).1 =
      (∅ : Finset ℚ) ∧
    ({0} : Finset ℚ) ≠ (∅ : Finset ℚ) := by
  constructor
  · norm_num [send_message, check_rate_limit, check_message_rate,
      RateLimiter.check_rate_limit, zcount, rangeMembers, windowMin, zremUpTo,
      daily_limit, Finset.filter_singleton, DAY]
  · decide

/-- C10 corrected: the accepted-send timestamp is appended only on the full
success path (admission allowed, gateway forward succeeded, persistence
succeeded); if forwarding or persistence fails after admission, no timestamp
is appended - the resulting window is a subset of the prior one, any
difference being the admission purge of already-expired entries - so the
failed attempt consumes no daily quota. -/
theorem claim10_failed_send_no_quota (storeUp : Bool) (s : Window)
    (tier : SubscriptionTier) (now : ℚ) (gatewayOk persistOk : Bool) (tr : ℚ)
    (hfail : gatewayOk = false ∨ persistOk = false) :
    (send_message storeUp s tier now gatewayOk persistOk tr).1 ⊆ s := by
  have hs2 := dep_fst_subset storeUp s tier now
  rcases hdep : check_rate_limit storeUp s tier now with ⟨s2, o⟩
  rw [hdep] at hs2
  cases o with
  | allowed hd =>
    rcases hfail with rfl | rfl
    · simp only [send_message, hdep]
      exact hs2
    · cases gatewayOk <;> simp only [send_message, hdep] <;> exact hs2
  | per_second_limit r =>
    simp only [send_message, hdep]
    exact hs2
  | daily_limit r =>
    simp only [send_message, hdep]
    exact hs2
  | storeException =>
    simp only [send_message, hdep]
    exact hs2

theorem claim10_witness :
    (send_message true {0} SubscriptionTier.free 86401 false true 86401).1 ⊆
      ({0} : Finset ℚ) :=
  claim10_failed_send_no_quota true {0} SubscriptionTier.free 86401 false true
    86401 (Or.inl rfl)

end Atlas
